import Mathlib

/-!
Verification of the precision-landing backend (src/app/main.py,
src/app/send_landing_target.py, src/app/image_capture.py).

The numeric transforms (vertical-FOV derivation, pixel-to-angle mapping,
quaternion angle) are embedded as functions over the real numbers; Python
floats are modelled by real arithmetic.  Timestamps and the lifecycle /
watchdog / per-iteration accounting state machines are embedded over the
rationals and booleans so they stay executable.
-/

namespace PrecLand

/-- Python math.radians: degrees to radians. -/
noncomputable def radians (d : ℝ) : ℝ := d * Real.pi / 180

/-- Python math.degrees: radians to degrees. -/
noncomputable def degrees (r : ℝ) : ℝ := r * 180 / Real.pi

/-- A quaternion given as its four components w, x, y, z, matching the
list layout used by main.py. -/
structure Quat where
  w : ℝ
  x : ℝ
  y : ℝ
  z : ℝ

/-- main.py line 63: quaternion used to check for a downward facing gimbal. -/
noncomputable def gimbal_down_q : Quat := ⟨0.7071, 0, -0.7071, 0⟩

/-- main.py lines 426-430 (angle_between_quaternions): absolute dot product,
clamped to [-1, 1], then 2 * acos, in radians. -/
noncomputable def angle_between_quaternions (q1 q2 : Quat) : ℝ :=
  2 * Real.arccos (min 1 (max (-1)
    |q1.w * q2.w + q1.x * q2.x + q1.y * q2.y + q1.z * q2.z|))

/-- main.py lines 191-214: the gating decision inside one Running-loop
iteration.  should_send_target starts true; only when gimbal gating is
enabled and the current gimbal orientation is available is it cleared,
namely when the deviation from gimbal_down_q exceeds radians 10.
An unavailable orientation (none) leaves the default true (fail open). -/
noncomputable def should_send_target (use_gimbal_attitude : Bool)
    (gimbal : Option Quat) : Prop :=
  match use_gimbal_attitude, gimbal with
  | false, _ => True
  | true, none => True
  | true, some q =>
      ¬ (radians 10 < angle_between_quaternions gimbal_down_q q)

/-- main.py lines 381-423 (calculate_vertical_fov): validate inputs, then
vfov = degrees (2 * atan (tan (radians hfov / 2) * (height / width))),
re-validated to lie in (0, 180), with 0.0 returned on any invalid input. -/
noncomputable def calculate_vertical_fov (hfov_deg width height : ℝ) : ℝ :=
  if width ≤ 0 then 0
  else if height ≤ 0 then 0
  else if hfov_deg ≤ 0 ∨ 180 ≤ hfov_deg then 0
  else if degrees (2 * Real.arctan (Real.tan (radians hfov_deg / 2) * (height / width))) ≤ 0
        ∨ 180 ≤ degrees (2 * Real.arctan (Real.tan (radians hfov_deg / 2) * (height / width)))
    then 0
  else degrees (2 * Real.arctan (Real.tan (radians hfov_deg / 2) * (height / width)))

/-- Result record of send_landing_target.py calculate_angular_offsets. -/
structure AngularOffsets where
  angle_x : ℝ
  angle_y : ℝ
  angle_x_deg : ℝ
  angle_y_deg : ℝ
  normalized_x : ℝ
  normalized_y : ℝ
  pixel_offset_x : ℝ
  pixel_offset_y : ℝ

/-- The all-zero result returned by calculate_angular_offsets on invalid
input. -/
noncomputable def zeroOffsets : AngularOffsets := ⟨0, 0, 0, 0, 0, 0, 0, 0⟩

/-- send_landing_target.py lines 152-219 (calculate_angular_offsets):
pixel offset from the image center, normalized by the half-dimension, then
scaled by half the field of view (linear small-angle formula); all-zero on
non-positive dimensions or non-positive FOV. -/
noncomputable def calculate_angular_offsets (tag_center_x tag_center_y
    image_width image_height camera_hfov_deg camera_vfov_deg : ℝ) :
    AngularOffsets :=
  if image_width ≤ 0 ∨ image_height ≤ 0 then zeroOffsets
  else if camera_hfov_deg ≤ 0 ∨ camera_vfov_deg ≤ 0 then zeroOffsets
  else
    { angle_x := ((tag_center_x - image_width / 2) / (image_width / 2)) *
        radians (camera_hfov_deg / 2)
      angle_y := ((tag_center_y - image_height / 2) / (image_height / 2)) *
        radians (camera_vfov_deg / 2)
      angle_x_deg := degrees (((tag_center_x - image_width / 2) / (image_width / 2)) *
        radians (camera_hfov_deg / 2))
      angle_y_deg := degrees (((tag_center_y - image_height / 2) / (image_height / 2)) *
        radians (camera_vfov_deg / 2))
      normalized_x := (tag_center_x - image_width / 2) / (image_width / 2)
      normalized_y := (tag_center_y - image_height / 2) / (image_height / 2)
      pixel_offset_x := tag_center_x - image_width / 2
      pixel_offset_y := tag_center_y - image_height / 2 }

/-! ## Lifecycle state machine (start / stop endpoints of main.py) -/

/-- Process-level state visible to the start/stop/status endpoints:
the precision_landing_running flag (main.py line 62) and whether the
Frame Source capture resource is currently held. -/
structure AppState where
  precision_landing_running : Bool
  capture_open : Bool
deriving DecidableEq

/-- Success flag of a JSON endpoint response. -/
structure ApiResult where
  success : Bool
deriving DecidableEq

/-- Modelled from the spec: image_capture.cleanup_video_capture is called
from main.py (lines 180, 298, 680) but its definition is not among the
captured sources; per the spec it is the Frame Source close directive,
releasing the capture handle, and has no failure mode. -/
def cleanup_video_capture (s : AppState) : AppState :=
  { s with capture_open := false }

/-- main.py lines 668-688 (stop_precision_landing endpoint): clear the
running flag, release the Frame Source, and answer success - there is no
not-Running failure branch. -/
def stop_precision_landing (s : AppState) : ApiResult × AppState :=
  let s1 : AppState := { s with precision_landing_running := false }
  (⟨true⟩, cleanup_video_capture s1)

/-- main.py lines 634-664 (start_precision_landing endpoint): if already
running, answer failure without spawning a loop task; otherwise spawn the
loop task and after the 2 s grace period report whether the loop survived
startup (startup_ok abstracts the probe outcome observed at that check).
The final Bool records whether a new loop task was created. -/
def start_precision_landing (s : AppState) (startup_ok : Bool) :
    ApiResult × AppState × Bool :=
  if s.precision_landing_running then (⟨false⟩, s, false)
  else (⟨startup_ok⟩,
        { s with precision_landing_running := startup_ok }, true)

/-! ## Watchdog and per-iteration accounting (Running-loop fragments) -/

/-- Loop-local state relevant to the stall watchdog: the running flag and
the time of the last successful frame (or last reset). -/
structure LoopTimers where
  running : Bool
  last_frame_time : ℚ
deriving DecidableEq

/-- main.py lines 174-185: the frame-capture-failure branch of one loop
iteration.  If more than 10 seconds have passed since last_frame_time,
issue the Frame Source reset directive (the returned Bool) and restart the
stall timer; otherwise leave the state untouched.  The branch never stops
the loop. -/
def capture_failure_step (now : ℚ) (s : LoopTimers) : Bool × LoopTimers :=
  if now - s.last_frame_time > 10 then
    (true, { running := s.running, last_frame_time := now })
  else
    (false, s)

/-- Counters and timestamps updated by the detection/dispatch section of
one loop iteration. -/
structure LoopCounters where
  tag_count : ℕ
  sent_count : ℕ
  last_send_time : ℚ
deriving DecidableEq

/-- main.py lines 239-267: the branch taken when a detection occurred.
tag_count is incremented, the report is dispatched once, sent_count is
incremented only if the dispatch succeeded (send_success), and
last_send_time is set to the current time unconditionally - line 267 sits
outside the success test. -/
def handle_detection (now : ℚ) (send_success : Bool) (c : LoopCounters) :
    LoopCounters :=
  { tag_count := c.tag_count + 1
    sent_count := if send_success then c.sent_count + 1 else c.sent_count
    last_send_time := now }

/-! ## Claim theorems: lifecycle, watchdog, accounting -/

/-- C2 counterexample: with the loop not Running (and the capture handle
still open), stop() answers success - not the failure the claim requires -
and the state is changed (the capture handle is released). -/
theorem C2_stop_not_running_counterexample :
    (stop_precision_landing ⟨false, true⟩).1.success = true ∧
    (stop_precision_landing ⟨false, true⟩).2 ≠ (⟨false, true⟩ : AppState) := by
  decide

/-- C2 (amended): stop() always answers success, and always leaves the loop
not Running with the Frame Source released, whether or not the loop was
Running when it was called (it is idempotent but reports success, never
failure, when the loop was not Running). -/
theorem C2_stop_always_succeeds_and_releases (s : AppState) :
    (stop_precision_landing s).1.success = true ∧
    (stop_precision_landing s).2.precision_landing_running = false ∧
    (stop_precision_landing s).2.capture_open = false := by
  refine ⟨rfl, rfl, rfl⟩

/-- C5: start() while the loop is already Running answers failure, leaves
the state unchanged, and spawns no second loop task, so at most one
control-loop instance is Running per process (single-flight). -/
theorem C5_start_single_flight (s : AppState) (startup_ok : Bool)
    (hrun : s.precision_landing_running = true) :
    (start_precision_landing s startup_ok).1.success = false ∧
    (start_precision_landing s startup_ok).2.1 = s ∧
    (start_precision_landing s startup_ok).2.2 = false := by
  simp [start_precision_landing, hrun]

/-- C5 witness: concrete Running state. -/
theorem C5_start_single_flight_witness :
    (start_precision_landing ⟨true, true⟩ true).1.success = false ∧
    (start_precision_landing ⟨true, true⟩ true).2.1 = (⟨true, true⟩ : AppState) ∧
    (start_precision_landing ⟨true, true⟩ true).2.2 = false :=
  C5_start_single_flight ⟨true, true⟩ true rfl

/-- C6: on a frame-capture failure, the Frame Source reset directive fires
exactly when more than 10 seconds have elapsed since the last successful
frame, in which case the stall timer restarts at the current time; the
branch never changes the running flag; and after a reset at time now, the
next failure at time now2 fires a reset again exactly when now2 - now
exceeds a further 10 seconds. -/
theorem C6_watchdog_reset (now now2 : ℚ) (s : LoopTimers) :
    (now - s.last_frame_time > 10 →
      capture_failure_step now s = (true, ⟨s.running, now⟩)) ∧
    (¬ now - s.last_frame_time > 10 →
      capture_failure_step now s = (false, s)) ∧
    (capture_failure_step now s).2.running = s.running ∧
    (now - s.last_frame_time > 10 →
      ((capture_failure_step now2 (capture_failure_step now s).2).1 = true ↔
        now2 - now > 10)) := by
  constructor
  · intro h
    simp [capture_failure_step, h]
  constructor
  · intro h
    simp [capture_failure_step, h]
  constructor
  · by_cases h : now - s.last_frame_time > 10 <;> simp [capture_failure_step, h]
  · intro h
    simp [capture_failure_step, h]
    by_cases h2 : now2 - now > 10 <;> simp [h2]

/-- C6 witness: stall of 20 s at time 20 fires one reset; a second failure
at time 25 (only 5 s after the reset) does not fire. -/
theorem C6_watchdog_reset_witness :
    capture_failure_step 20 ⟨true, 0⟩ = (true, ⟨true, 20⟩) ∧
    (capture_failure_step 25 (capture_failure_step 20 ⟨true, 0⟩).2).1 = false := by
  refine ⟨(C6_watchdog_reset 20 25 ⟨true, 0⟩).1 (by norm_num), ?_⟩
  have h := ((C6_watchdog_reset 20 25 ⟨true, 0⟩).2.2.2 (by norm_num))
  have h2 : ¬ ((25 : ℚ) - 20 > 10) := by norm_num
  exact Bool.eq_false_iff.mpr fun ht => h2 (h.mp ht)

/-- C7 counterexample: a detection at time 5 whose dispatch fails leaves
sent_count at 0 but still moves last_send_time from 0 to 5, contradicting
the claim that last_send_time is unchanged on dispatch failure. -/
theorem C7_failed_dispatch_counterexample :
    (handle_detection 5 false ⟨0, 0, 0⟩).sent_count = 0 ∧
    (handle_detection 5 false ⟨0, 0, 0⟩).last_send_time ≠ 0 := by
  decide

/-- C7 (amended): in an iteration where a detection occurred and a target
report was dispatched, sent_count is incremented exactly when the dispatch
succeeds, while last_send_time is updated to the current time whether the
dispatch succeeded or failed; tag_count is incremented either way, the
failure is only logged, and that report is never retried (the model
dispatches once per detection). -/
theorem C7_dispatch_accounting (now : ℚ) (send_success : Bool)
    (c : LoopCounters) :
    (handle_detection now send_success c).tag_count = c.tag_count + 1 ∧
    (handle_detection now send_success c).sent_count =
      (if send_success then c.sent_count + 1 else c.sent_count) ∧
    (handle_detection now send_success c).last_send_time = now := by
  refine ⟨rfl, rfl, rfl⟩

/-! ## Claim theorems: orientation filter and gating -/

/-- C8: the orientation filter computes 2 * acos of the clamped absolute
dot product, is symmetric in its arguments, and sends both (q, q) and
(q, -q) to 0 for any unit quaternion q (double-cover equivalence).  Being
a plain function of its arguments it is deterministic. -/
theorem C8_angle_between_props (q1 q2 q : Quat)
    (hq : q.w ^ 2 + q.x ^ 2 + q.y ^ 2 + q.z ^ 2 = 1) :
    angle_between_quaternions q1 q2 =
      2 * Real.arccos (min 1 (max (-1)
        |q1.w * q2.w + q1.x * q2.x + q1.y * q2.y + q1.z * q2.z|)) ∧
    angle_between_quaternions q1 q2 = angle_between_quaternions q2 q1 ∧
    angle_between_quaternions q q = 0 ∧
    angle_between_quaternions q ⟨-q.w, -q.x, -q.y, -q.z⟩ = 0 := by
  refine ⟨rfl, ?_, ?_, ?_⟩
  · unfold angle_between_quaternions
    have hc : q1.w * q2.w + q1.x * q2.x + q1.y * q2.y + q1.z * q2.z =
        q2.w * q1.w + q2.x * q1.x + q2.y * q1.y + q2.z * q1.z := by ring
    rw [hc]
  · unfold angle_between_quaternions
    have hd : q.w * q.w + q.x * q.x + q.y * q.y + q.z * q.z = 1 := by
      linear_combination hq
    rw [hd]
    norm_num [Real.arccos_one]
  · unfold angle_between_quaternions
    dsimp only
    have hd : q.w * -q.w + q.x * -q.x + q.y * -q.y + q.z * -q.z = -1 := by
      linear_combination -hq
    rw [hd]
    norm_num [Real.arccos_one]

/-- C8 witness: the unit quaternion (1,0,0,0). -/
theorem C8_angle_between_props_witness :
    angle_between_quaternions ⟨1, 0, 0, 0⟩ ⟨1, 0, 0, 0⟩ = 0 :=
  (C8_angle_between_props ⟨1, 0, 0, 0⟩ ⟨1, 0, 0, 0⟩ ⟨1, 0, 0, 0⟩
    (by norm_num)).2.2.1

/-- C10 (implicit): for arbitrary 4-component inputs (unit length or not)
the orientation filter is total, its clamped dot product lies in [-1, 1]
(in fact in [0, 1] because of the absolute value), and the returned angle
always lies in [0, pi] radians. -/
theorem C10_angle_between_total_range (q1 q2 : Quat) :
    0 ≤ angle_between_quaternions q1 q2 ∧
    angle_between_quaternions q1 q2 ≤ Real.pi ∧
    -1 ≤ min 1 (max (-1)
      |q1.w * q2.w + q1.x * q2.x + q1.y * q2.y + q1.z * q2.z|) ∧
    min 1 (max (-1)
      |q1.w * q2.w + q1.x * q2.x + q1.y * q2.y + q1.z * q2.z|) ≤ 1 := by
  set d : ℝ := |q1.w * q2.w + q1.x * q2.x + q1.y * q2.y + q1.z * q2.z| with hdset
  have hd0 : 0 ≤ d := abs_nonneg _
  have hmax : max (-1 : ℝ) d = d := max_eq_right (by linarith)
  have hc0 : 0 ≤ min (1 : ℝ) (max (-1) d) := by
    rw [hmax]
    exact le_min (by norm_num) hd0
  have harc0 : 0 ≤ Real.arccos (min 1 (max (-1) d)) := Real.arccos_nonneg _
  have harc2 : Real.arccos (min 1 (max (-1) d)) ≤ Real.pi / 2 := by
    rw [Real.arccos_eq_pi_div_two_sub_arcsin]
    have := Real.arcsin_nonneg.mpr hc0
    linarith
  refine ⟨?_, ?_, ?_, min_le_left _ _⟩
  · unfold angle_between_quaternions
    rw [← hdset]
    linarith
  · unfold angle_between_quaternions
    rw [← hdset]
    linarith
  · exact le_min (by norm_num) (le_max_left _ _)

/-- C1: in a Running-loop iteration the gating decision is true when
gating is disabled; true when gating is enabled but the orientation is
unavailable (fail open); and with gating enabled and an orientation
available it is true exactly when the deviation from gimbal_down_q is at
most radians 10, so a deviation of radians 15 gives false and a deviation
of radians 5 gives true. -/
theorem C1_gating (g : Option Quat) (q : Quat) :
    should_send_target false g ∧
    should_send_target true none ∧
    (should_send_target true (some q) ↔
      angle_between_quaternions gimbal_down_q q ≤ radians 10) ∧
    (angle_between_quaternions gimbal_down_q q = radians 15 →
      ¬ should_send_target true (some q)) ∧
    (angle_between_quaternions gimbal_down_q q = radians 5 →
      should_send_target true (some q)) := by
  have hpi := Real.pi_pos
  refine ⟨by cases g <;> trivial, trivial, not_lt, ?_, ?_⟩
  · intro h hss
    apply hss
    rw [h]
    unfold radians
    nlinarith
  · intro h
    show ¬ (radians 10 < angle_between_quaternions gimbal_down_q q)
    rw [h, not_lt]
    unfold radians
    nlinarith

/-- C1 witness: gating disabled, and gating enabled with the orientation
unavailable, both give true. -/
theorem C1_gating_witness :
    should_send_target false none ∧ should_send_target true none :=
  ⟨(C1_gating none ⟨1, 0, 0, 0⟩).1, (C1_gating none ⟨1, 0, 0, 0⟩).2.1⟩

/-! ## Claim theorems: angular geometry -/

lemma calculate_vertical_fov_valid (hfov w h : ℝ) (hw : 0 < w) (hh : 0 < h)
    (h0 : 0 < hfov) (h180 : hfov < 180) :
    calculate_vertical_fov hfov w h =
      degrees (2 * Real.arctan (Real.tan (radians hfov / 2) * (h / w))) ∧
    0 < calculate_vertical_fov hfov w h ∧
    calculate_vertical_fov hfov w h < 180 := by
  have hpi := Real.pi_pos
  have hθ0 : 0 < radians hfov / 2 := by
    unfold radians
    positivity
  have hθlt : radians hfov / 2 < Real.pi / 2 := by
    unfold radians
    rw [div_lt_div_iff (by norm_num) (by norm_num)]
    nlinarith
  have htan : 0 < Real.tan (radians hfov / 2) :=
    Real.tan_pos_of_pos_of_lt_pi_div_two hθ0 hθlt
  have harg : 0 < Real.tan (radians hfov / 2) * (h / w) :=
    mul_pos htan (div_pos hh hw)
  have ha0 : 0 < Real.arctan (Real.tan (radians hfov / 2) * (h / w)) := by
    have hmono := Real.arctan_strictMono harg
    rwa [Real.arctan_zero] at hmono
  have halt : Real.arctan (Real.tan (radians hfov / 2) * (h / w)) < Real.pi / 2 :=
    Real.arctan_lt_pi_div_two _
  have hd0 : 0 < degrees (2 * Real.arctan (Real.tan (radians hfov / 2) * (h / w))) := by
    unfold degrees
    positivity
  have hdlt : degrees (2 * Real.arctan (Real.tan (radians hfov / 2) * (h / w))) < 180 := by
    unfold degrees
    rw [div_lt_iff hpi]
    nlinarith
  have hw' : ¬ w ≤ 0 := not_le.mpr hw
  have hh' : ¬ h ≤ 0 := not_le.mpr hh
  have hf' : ¬ (hfov ≤ 0 ∨ 180 ≤ hfov) := by
    push_neg
    exact ⟨h0, h180⟩
  have hin : ¬ (degrees (2 * Real.arctan (Real.tan (radians hfov / 2) * (h / w))) ≤ 0
      ∨ 180 ≤ degrees (2 * Real.arctan (Real.tan (radians hfov / 2) * (h / w)))) := by
    push_neg
    exact ⟨hd0, hdlt⟩
  unfold calculate_vertical_fov
  rw [if_neg hw', if_neg hh', if_neg hf', if_neg hin]
  exact ⟨rfl, hd0, hdlt⟩

lemma calculate_vertical_fov_square (hfov w : ℝ) (hw : 0 < w)
    (h0 : 0 < hfov) (h180 : hfov < 180) :
    calculate_vertical_fov hfov w w = hfov := by
  have hpi := Real.pi_pos
  have hθlt : radians hfov / 2 < Real.pi / 2 := by
    unfold radians
    rw [div_lt_div_iff (by norm_num) (by norm_num)]
    nlinarith
  have hθneg : -(Real.pi / 2) < radians hfov / 2 := by
    have : 0 < radians hfov / 2 := by
      unfold radians
      positivity
    linarith
  rw [(calculate_vertical_fov_valid hfov w w hw hw h0 h180).1,
      div_self (ne_of_gt hw), mul_one, Real.arctan_tan hθneg hθlt]
  unfold degrees radians
  field_simp
  ring

/-- C3: the vertical-FOV function computes
degrees (2 * atan (tan (radians hfov / 2) * (height / width))); for valid
inputs the result lies strictly between 0 and 180 degrees and equals hfov
when height = width; every invalid input returns 0.0.  The embedding is a
total function, mirroring the source's never-raise contract. -/
theorem C3_vfov_spec (hfov w h : ℝ) :
    (0 < w → 0 < h → 0 < hfov → hfov < 180 →
      calculate_vertical_fov hfov w h =
        degrees (2 * Real.arctan (Real.tan (radians hfov / 2) * (h / w))) ∧
      0 < calculate_vertical_fov hfov w h ∧
      calculate_vertical_fov hfov w h < 180 ∧
      (h = w → calculate_vertical_fov hfov w h = hfov)) ∧
    (w ≤ 0 ∨ h ≤ 0 ∨ hfov ≤ 0 ∨ 180 ≤ hfov →
      calculate_vertical_fov hfov w h = 0) := by
  constructor
  · intro hw hh h0 h180
    obtain ⟨he, hp, hl⟩ := calculate_vertical_fov_valid hfov w h hw hh h0 h180
    refine ⟨he, hp, hl, fun hhw => ?_⟩
    rw [hhw]
    exact calculate_vertical_fov_square hfov w hw h0 h180
  · intro hbad
    unfold calculate_vertical_fov
    split_ifs with h1 h2 h3 h4 <;> first | rfl | tauto

/-- C3 witness: a square 1x1 frame at hfov 90 gives vfov 90, and a zero
width is invalid and gives 0. -/
theorem C3_vfov_spec_witness :
    calculate_vertical_fov 90 1 1 = 90 ∧ calculate_vertical_fov 90 0 1 = 0 := by
  refine ⟨?_, (C3_vfov_spec 90 0 1).2 (Or.inl le_rfl)⟩
  exact ((C3_vfov_spec 90 1 1).1 one_pos one_pos (by norm_num) (by norm_num)).2.2.2 rfl

/-- C4: the angular-offset computation is the linear small-angle formula:
angle_x is the normalized center offset times radians (hfov / 2) (and
angle_y the analogue with vfov); a detection at the exact image center
gives zero angles; a detection at pixel (0,0) gives angle_x_deg =
-(hfov/2) and angle_y_deg = -(vfov/2); invalid inputs give the all-zero
record.  The embedding is total, mirroring the never-raise contract. -/
theorem C4_angular_offsets_spec (cx cy w h hfov vfov : ℝ) :
    (0 < w → 0 < h → 0 < hfov → 0 < vfov →
      (calculate_angular_offsets cx cy w h hfov vfov).angle_x =
        ((cx - w / 2) / (w / 2)) * radians (hfov / 2) ∧
      (calculate_angular_offsets cx cy w h hfov vfov).angle_y =
        ((cy - h / 2) / (h / 2)) * radians (vfov / 2) ∧
      (cx = w / 2 → (calculate_angular_offsets cx cy w h hfov vfov).angle_x = 0) ∧
      (cy = h / 2 → (calculate_angular_offsets cx cy w h hfov vfov).angle_y = 0) ∧
      (cx = 0 → (calculate_angular_offsets cx cy w h hfov vfov).angle_x_deg = -(hfov / 2)) ∧
      (cy = 0 → (calculate_angular_offsets cx cy w h hfov vfov).angle_y_deg = -(vfov / 2))) ∧
    (w ≤ 0 ∨ h ≤ 0 ∨ hfov ≤ 0 ∨ vfov ≤ 0 →
      calculate_angular_offsets cx cy w h hfov vfov = zeroOffsets) := by
  have hpi := Real.pi_pos
  constructor
  · intro hw hh h0 hv0
    have hdim : ¬ (w ≤ 0 ∨ h ≤ 0) := by
      push_neg
      exact ⟨hw, hh⟩
    have hfv : ¬ (hfov ≤ 0 ∨ vfov ≤ 0) := by
      push_neg
      exact ⟨h0, hv0⟩
    unfold calculate_angular_offsets
    rw [if_neg hdim, if_neg hfv]
    refine ⟨rfl, rfl, ?_, ?_, ?_, ?_⟩
    · intro hc
      simp [hc]
    · intro hc
      simp [hc]
    · intro hc
      have hw2 : w / 2 ≠ 0 := by positivity
      dsimp only
      rw [hc]
      unfold degrees radians
      field_simp
      ring
    · intro hc
      have hh2 : h / 2 ≠ 0 := by positivity
      dsimp only
      rw [hc]
      unfold degrees radians
      field_simp
      ring
  · intro hbad
    unfold calculate_angular_offsets
    split_ifs with h1 h2 <;> first | rfl | tauto

/-- C4 witness: a 2x2 frame with both FOVs 90 and the detection at the
exact center (1, 1) yields zero angular offsets. -/
theorem C4_angular_offsets_spec_witness :
    (calculate_angular_offsets 1 1 2 2 90 90).angle_x = 0 ∧
    (calculate_angular_offsets 1 1 2 2 90 90).angle_y = 0 := by
  have h := (C4_angular_offsets_spec 1 1 2 2 90 90).1 two_pos two_pos
    (by norm_num) (by norm_num)
  exact ⟨h.2.2.1 (by norm_num), h.2.2.2.1 (by norm_num)⟩

/-! ## Numeric bounds for the regression oracle (claim C9)

Quartic Taylor bounds on sin and cos give rational enclosures of
tan (2 * pi / 9), hence of the computed vertical FOV at hfov 80 degrees and
a 1920x1080 frame. -/

lemma sin_cos_poly_bounds (x : ℝ) (h0 : 0 ≤ x) (h1 : x ≤ 1) :
    x - x ^ 3 / 6 - x ^ 4 * (5 / 96) ≤ Real.sin x ∧
    Real.sin x ≤ x - x ^ 3 / 6 + x ^ 4 * (5 / 96) ∧
    1 - x ^ 2 / 2 - x ^ 4 * (5 / 96) ≤ Real.cos x ∧
    Real.cos x ≤ 1 - x ^ 2 / 2 + x ^ 4 * (5 / 96) := by
  have hx : |x| ≤ 1 := by rwa [abs_of_nonneg h0]
  have hs := abs_le.mp (Real.sin_bound hx)
  have hc := abs_le.mp (Real.cos_bound hx)
  rw [abs_of_nonneg h0] at hs hc
  exact ⟨by linarith [hs.1], by linarith [hs.2], by linarith [hc.1], by linarith [hc.2]⟩

lemma sin_lower_bound (x lo hi : ℝ) (hlo : lo ≤ x) (hhi : x ≤ hi)
    (h0 : 0 ≤ lo) (h1 : hi ≤ 1) :
    lo - hi ^ 3 / 6 - hi ^ 4 * (5 / 96) ≤ Real.sin x := by
  have h0x : 0 ≤ x := le_trans h0 hlo
  have hb := (sin_cos_poly_bounds x h0x (le_trans hhi h1)).1
  have h3 : x ^ 3 ≤ hi ^ 3 := pow_le_pow_left h0x hhi 3
  have h4 : x ^ 4 ≤ hi ^ 4 := pow_le_pow_left h0x hhi 4
  linarith

lemma sin_upper_bound (x lo hi : ℝ) (hlo : lo ≤ x) (hhi : x ≤ hi)
    (h0 : 0 ≤ lo) (h1 : hi ≤ 1) :
    Real.sin x ≤ hi - lo ^ 3 / 6 + hi ^ 4 * (5 / 96) := by
  have h0x : 0 ≤ x := le_trans h0 hlo
  have hb := (sin_cos_poly_bounds x h0x (le_trans hhi h1)).2.1
  have h3 : lo ^ 3 ≤ x ^ 3 := pow_le_pow_left h0 hlo 3
  have h4 : x ^ 4 ≤ hi ^ 4 := pow_le_pow_left h0x hhi 4
  linarith

lemma cos_lower_bound (x lo hi : ℝ) (hlo : lo ≤ x) (hhi : x ≤ hi)
    (h0 : 0 ≤ lo) (h1 : hi ≤ 1) :
    1 - hi ^ 2 / 2 - hi ^ 4 * (5 / 96) ≤ Real.cos x := by
  have h0x : 0 ≤ x := le_trans h0 hlo
  have hb := (sin_cos_poly_bounds x h0x (le_trans hhi h1)).2.2.1
  have h2 : x ^ 2 ≤ hi ^ 2 := pow_le_pow_left h0x hhi 2
  have h4 : x ^ 4 ≤ hi ^ 4 := pow_le_pow_left h0x hhi 4
  linarith

lemma cos_upper_bound (x lo hi : ℝ) (hlo : lo ≤ x) (hhi : x ≤ hi)
    (h0 : 0 ≤ lo) (h1 : hi ≤ 1) :
    Real.cos x ≤ 1 - lo ^ 2 / 2 + hi ^ 4 * (5 / 96) := by
  have h0x : 0 ≤ x := le_trans h0 hlo
  have hb := (sin_cos_poly_bounds x h0x (le_trans hhi h1)).2.2.2
  have h2 : lo ^ 2 ≤ x ^ 2 := pow_le_pow_left h0 hlo 2
  have h4 : x ^ 4 ≤ hi ^ 4 := pow_le_pow_left h0x hhi 4
  linarith

lemma arctan_gt_of_tan_lt {a b : ℝ} (hb0 : 0 ≤ b) (hb2 : b < Real.pi / 2)
    (h : Real.tan b < a) : b < Real.arctan a := by
  have hneg : -(Real.pi / 2) < b := by
    have := Real.pi_pos
    linarith
  have hmono := Real.arctan_strictMono h
  rwa [Real.arctan_tan hneg hb2] at hmono

lemma arctan_lt_of_lt_tan {a b : ℝ} (hb0 : 0 ≤ b) (hb2 : b < Real.pi / 2)
    (h : a < Real.tan b) : Real.arctan a < b := by
  have hneg : -(Real.pi / 2) < b := by
    have := Real.pi_pos
    linarith
  have hmono := Real.arctan_strictMono h
  rwa [Real.arctan_tan hneg hb2] at hmono

lemma tan_b1_lt : Real.tan 0.43372 < 0.467 := by
  have hs : Real.sin 0.43372 ≤ 0.42197 :=
    le_trans (sin_upper_bound 0.43372 0.43372 0.43372 le_rfl le_rfl
      (by norm_num) (by norm_num)) (by norm_num)
  have hc : (0.904 : ℝ) ≤ Real.cos 0.43372 :=
    le_trans (by norm_num) (cos_lower_bound 0.43372 0.43372 0.43372 le_rfl le_rfl
      (by norm_num) (by norm_num))
  rw [Real.tan_eq_sin_div_cos, div_lt_iff (by linarith : (0 : ℝ) < Real.cos 0.43372)]
  nlinarith [hs, hc]

lemma tan_b2_gt : (0.474 : ℝ) < Real.tan 0.44942 := by
  have hs : (0.43216 : ℝ) ≤ Real.sin 0.44942 :=
    le_trans (by norm_num) (sin_lower_bound 0.44942 0.44942 0.44942 le_rfl le_rfl
      (by norm_num) (by norm_num))
  have hc : Real.cos 0.44942 ≤ 0.90114 :=
    le_trans (cos_upper_bound 0.44942 0.44942 0.44942 le_rfl le_rfl
      (by norm_num) (by norm_num)) (by norm_num)
  have hc0 : (0.89 : ℝ) ≤ Real.cos 0.44942 :=
    le_trans (by norm_num) (cos_lower_bound 0.44942 0.44942 0.44942 le_rfl le_rfl
      (by norm_num) (by norm_num))
  rw [Real.tan_eq_sin_div_cos, lt_div_iff (by linarith : (0 : ℝ) < Real.cos 0.44942)]
  nlinarith [hs, hc]

set_option maxHeartbeats 1000000 in
lemma vfov_regression_bounds :
    49.7 < calculate_vertical_fov 80 1920 1080 ∧
    calculate_vertical_fov 80 1920 1080 < 51.5 := by
  have hp1 : 3.141592 < Real.pi := Real.pi_gt_d6
  have hp2 : Real.pi < 3.141593 := Real.pi_lt_d6
  have hval := (calculate_vertical_fov_valid 80 1920 1080 (by norm_num) (by norm_num)
    (by norm_num) (by norm_num)).1
  have hang : radians 80 / 2 = 2 * (Real.pi / 9) := by
    unfold radians
    ring
  have hy1 : 0.34906 ≤ Real.pi / 9 := by
    rw [le_div_iff (by norm_num : (0 : ℝ) < 9)]
    linarith
  have hy2 : Real.pi / 9 ≤ 0.34907 := by
    rw [div_le_iff (by norm_num : (0 : ℝ) < 9)]
    linarith
  have hsl : (0.34119 : ℝ) ≤ Real.sin (Real.pi / 9) :=
    le_trans (by norm_num)
      (sin_lower_bound (Real.pi / 9) 0.34906 0.34907 hy1 hy2 (by norm_num) (by norm_num))
  have hsu : Real.sin (Real.pi / 9) ≤ 0.34276 :=
    le_trans
      (sin_upper_bound (Real.pi / 9) 0.34906 0.34907 hy1 hy2 (by norm_num) (by norm_num))
      (by norm_num)
  have hcl : (0.9383 : ℝ) ≤ Real.cos (Real.pi / 9) :=
    le_trans (by norm_num)
      (cos_lower_bound (Real.pi / 9) 0.34906 0.34907 hy1 hy2 (by norm_num) (by norm_num))
  have hcu : Real.cos (Real.pi / 9) ≤ 0.93986 :=
    le_trans
      (cos_upper_bound (Real.pi / 9) 0.34906 0.34907 hy1 hy2 (by norm_num) (by norm_num))
      (by norm_num)
  have hcos2 : Real.cos (2 * (Real.pi / 9)) = 1 - 2 * Real.sin (Real.pi / 9) ^ 2 := by
    have hpy := Real.sin_sq_add_cos_sq (Real.pi / 9)
    rw [Real.cos_two_mul]
    linarith
  have hsin2 := Real.sin_two_mul (Real.pi / 9)
  have hq1 : (0 : ℝ) ≤ (0.34276 - Real.sin (Real.pi / 9)) * Real.cos (Real.pi / 9) :=
    mul_nonneg (by linarith) (by linarith)
  have hq2 : (0 : ℝ) ≤ (Real.sin (Real.pi / 9) - 0.34119) * Real.cos (Real.pi / 9) :=
    mul_nonneg (by linarith) (by linarith)
  have hq3 : (0 : ℝ) ≤ (0.34276 - Real.sin (Real.pi / 9)) * (0.34276 + Real.sin (Real.pi / 9)) :=
    mul_nonneg (by linarith) (by linarith)
  have hq4 : (0 : ℝ) ≤ (Real.sin (Real.pi / 9) - 0.34119) * (Real.sin (Real.pi / 9) + 0.34119) :=
    mul_nonneg (by linarith) (by linarith)
  have hD1 : (0.76503 : ℝ) ≤ 1 - 2 * Real.sin (Real.pi / 9) ^ 2 := by nlinarith [hq3]
  have hD2 : 1 - 2 * Real.sin (Real.pi / 9) ^ 2 ≤ 0.76718 := by nlinarith [hq4]
  have hN1 : (0.64027 : ℝ) ≤ 2 * Real.sin (Real.pi / 9) * Real.cos (Real.pi / 9) := by
    nlinarith [hq2, hcl, hsl]
  have hq5 : (0 : ℝ) ≤ (0.93986 - Real.cos (Real.pi / 9)) * (0.34276 : ℝ) :=
    mul_nonneg (by linarith) (by norm_num)
  have hN2 : 2 * Real.sin (Real.pi / 9) * Real.cos (Real.pi / 9) ≤ 0.64431 := by
    nlinarith [hq1, hq5]
  have hD0 : 0 < Real.cos (2 * (Real.pi / 9)) := by
    rw [hcos2]
    linarith
  have htl : (0.834 : ℝ) < Real.tan (2 * (Real.pi / 9)) := by
    rw [Real.tan_eq_sin_div_cos, lt_div_iff hD0, hcos2, hsin2]
    linarith [hD2, hN1]
  have htu : Real.tan (2 * (Real.pi / 9)) < 0.8425 := by
    rw [Real.tan_eq_sin_div_cos, div_lt_iff hD0, hcos2, hsin2]
    linarith [hD1, hN2]
  have harg : Real.tan (radians 80 / 2) * ((1080 : ℝ) / 1920) =
      Real.tan (2 * (Real.pi / 9)) * 0.5625 := by
    rw [hang]
    norm_num
  have hu1 : (0.469 : ℝ) < Real.tan (2 * (Real.pi / 9)) * 0.5625 := by linarith [htl]
  have hu2 : Real.tan (2 * (Real.pi / 9)) * 0.5625 < 0.474 := by linarith [htu]
  have hb1 : (0.43372 : ℝ) < Real.arctan (Real.tan (2 * (Real.pi / 9)) * 0.5625) :=
    arctan_gt_of_tan_lt (by norm_num) (by linarith) (lt_trans tan_b1_lt (by linarith))
  have hb2 : Real.arctan (Real.tan (2 * (Real.pi / 9)) * 0.5625) < 0.44942 :=
    arctan_lt_of_lt_tan (by norm_num) (by linarith) (lt_trans hu2 tan_b2_gt)
  rw [hval, harg]
  unfold degrees
  constructor
  · rw [lt_div_iff (by linarith : (0 : ℝ) < Real.pi)]
    linarith [hb1, hp2]
  · rw [div_lt_iff (by linarith : (0 : ℝ) < Real.pi)]
    linarith [hb2, hp1]

/-- C9 counterexample: the computed vertical FOV for hfov 80 degrees on a
1920x1080 frame is not within 0.5 of 49.1 degrees (it exceeds 49.7). -/
theorem C9_vfov_counterexample :
    ¬ |calculate_vertical_fov 80 1920 1080 - 49.1| ≤ 0.5 := by
  have h := vfov_regression_bounds
  intro habs
  have h2 := (abs_le.mp habs).2
  linarith [h.1]

/-- C9 (amended): with hfov 80 degrees and a 1920x1080 frame the computed
vertical FOV is approximately 50.5 degrees (strictly between 49.7 and
51.5), not approximately 49.1; and a detection centered at pixel
(1000, 500) gives angle_x_deg exactly 5/3, which is approximately +1.67
degrees as the claim states. -/
theorem C9_regression_oracle :
    49.7 < calculate_vertical_fov 80 1920 1080 ∧
    calculate_vertical_fov 80 1920 1080 < 51.5 ∧
    (calculate_angular_offsets 1000 500 1920 1080 80
      (calculate_vertical_fov 80 1920 1080)).angle_x_deg = 5 / 3 ∧
    |(5 / 3 : ℝ) - 1.67| ≤ 1 / 100 := by
  obtain ⟨hlo, hhi⟩ := vfov_regression_bounds
  refine ⟨hlo, hhi, ?_, by rw [abs_le]; norm_num⟩
  have hdim : ¬ ((1920 : ℝ) ≤ 0 ∨ (1080 : ℝ) ≤ 0) := by norm_num
  have hfv : ¬ ((80 : ℝ) ≤ 0 ∨ calculate_vertical_fov 80 1920 1080 ≤ 0) := by
    push_neg
    constructor
    · norm_num
    · linarith
  unfold calculate_angular_offsets
  rw [if_neg hdim, if_neg hfv]
  dsimp only
  unfold degrees radians
  have hpi := Real.pi_ne_zero
  field_simp
  ring

end PrecLand
